import Mathlib

/-
  Shallow embedding of `src/bot/handlers/chat_parser.py` (and the store
  interface it calls) from the tg-chats-crm repository.

  Modelling conventions:
  * Python `str` is modelled as Lean `String` / `List Char`.
  * `str.lower()` is modelled for ASCII and the Cyrillic block used by the
    bilingual label vocabulary; other characters are left unchanged
    (length-preserving, which holds for all characters the labels use).
  * `\s` (Python regex whitespace) is modelled by the six ASCII whitespace
    characters; `\d` and `float()` digits are modelled as ASCII digits.
  * Python `float` is modelled as an exact rational (the parser only ever
    builds finite decimal values, and the claims compare decimal literals).
  * The label patterns all have the shape `(?:alt1|alt2|...)\s*[:\-]\s*(.+)`
    searched with `re.IGNORECASE | re.MULTILINE`; the matcher below
    implements Python `re.search` semantics for exactly that shape:
    leftmost start position wins, alternatives are tried in order at each
    position, `\s*` is greedy with backtracking, `.` does not match a
    newline, and the capture group is greedy.
-/

/-- Python `str.lower` restricted to ASCII letters and the Cyrillic
block (А..Я and Ё) used by the label vocabulary; every other character
is returned unchanged. -/
def pyLowerChar (c : Char) : Char :=
  if 'A' ≤ c ∧ c ≤ 'Z' then Char.ofNat (c.toNat + 32)
  else if 0x410 ≤ c.toNat ∧ c.toNat ≤ 0x42F then Char.ofNat (c.toNat + 32)
  else if c.toNat = 0x401 then Char.ofNat 0x451
  else c

/-- The ASCII whitespace characters matched by Python regex `\s` and
stripped by `str.strip()`. -/
def isPySpace (c : Char) : Bool :=
  c == ' ' || c == '\t' || c == '\n' || c == '\r' ||
  c == Char.ofNat 0x0B || c == Char.ofNat 0x0C

/-- Python `str.strip()`: drop whitespace from both ends. -/
def pyStrip (cs : List Char) : List Char :=
  ((cs.dropWhile isPySpace).reverse.dropWhile isPySpace).reverse

/-- Case-insensitive test that `pat` (given in lowercase) starts the text
`cs`, the way `re.IGNORECASE` compares a literal alternative. -/
def ciStarts : List Char → List Char → Bool
  | [], _ => true
  | _ :: _, [] => false
  | p :: ps, c :: cs => (pyLowerChar c == p) && ciStarts ps cs

/-- Match `\s*(.+)` at the start of `cs` (greedy `\s*` with backtracking,
`.` excludes newlines, capture group greedy), returning the captured text.
When some non-whitespace character remains after the whitespace run the
greedy run wins and the capture is the rest of that line; when `cs` is
whitespace only, backtracking stops at the last non-newline character. -/
def matchValue (cs : List Char) : Option (List Char) :=
  let rest := cs.dropWhile isPySpace
  if rest.isEmpty then
    match cs.reverse.dropWhile (fun c => c == '\n') with
    | [] => none
    | c :: _ => some [c]
  else
    some (rest.takeWhile (fun c => c != '\n'))

/-- Match `\s*[:\-]\s*(.+)` at the start of `cs`: the first `\s*` is
greedy (no backtracking can help, since `:`/`-` are not whitespace). -/
def afterLabel (cs : List Char) : Option (List Char) :=
  match cs.dropWhile isPySpace with
  | c :: rest => if c == ':' || c == '-' then matchValue rest else none
  | [] => none

/-- Try every label alternative, in pattern order, at the current
position; on a label hit the remainder of the pattern must also match. -/
def tryAltsAt : List (List Char) → List Char → Option (List Char)
  | [], _ => none
  | alt :: alts, cs =>
    match (if ciStarts alt cs then afterLabel (cs.drop alt.length) else none) with
    | some v => some v
    | none => tryAltsAt alts cs

/-- Python `re.search` for a pattern `(?:alts)\s*[:\-]\s*(.+)`: scan the
start positions left to right and return the first capture. -/
def searchCapture (alts : List (List Char)) : List Char → Option (List Char)
  | [] => none
  | c :: cs =>
    match tryAltsAt alts (c :: cs) with
    | some v => some v
    | none => searchCapture alts cs

/-- Match the classifier keyword shape `(?:alts)\s*[:\-]` at the current
position. -/
def kwAt (alts : List (List Char)) (cs : List Char) : Bool :=
  alts.any (fun alt =>
    ciStarts alt cs &&
      (match (cs.drop alt.length).dropWhile isPySpace with
       | c :: _ => c == ':' || c == '-'
       | [] => false))

/-- Python `re.search` for a classifier keyword pattern
`(?:alts)\s*[:\-]`. -/
def searchKw (alts : List (List Char)) : List Char → Bool
  | [] => false
  | c :: cs => kwAt alts (c :: cs) || searchKw alts cs

/-- ASCII decimal digit test. -/
def isDigitChar (c : Char) : Bool := '0' ≤ c && c ≤ '9'

/-- Numeric value of an ASCII digit. -/
def digitVal (c : Char) : Option Nat :=
  if '0' ≤ c ∧ c ≤ '9' then some (c.toNat - 48) else none

/-- Value of a digit string read in base 10. -/
def digitsVal (cs : List Char) : Nat :=
  cs.foldl (fun a c => 10 * a + (c.toNat - 48)) 0

/-- Python `float()` on a string containing only digits and periods (the
only shape `parse_amount` can produce), split into its integer-part
value, fractional-part value and fractional digit count: valid when there
is at most one period and at least one digit. -/
def pyFloatParts (cs : List Char) : Option (Nat × Nat × Nat) :=
  if cs.all (fun c => isDigitChar c || c == '.') &&
      ((cs.filter (fun c => c == '.')).length ≤ 1 : Bool) &&
      cs.any isDigitChar then
    some (digitsVal (cs.takeWhile (fun c => c != '.')),
      digitsVal ((cs.dropWhile (fun c => c != '.')).drop 1),
      ((cs.dropWhile (fun c => c != '.')).drop 1).length)
  else none

/-- Exact rational value of a parsed decimal: integer part `ip`,
fractional digits worth `fp`, over `fd` fractional places. Python `float`
is modelled by this exact decimal value. -/
def decValue (p : Nat × Nat × Nat) : ℚ :=
  mkRat (p.1 * 10 ^ p.2.2 + p.2.1) (10 ^ p.2.2)

/-- Python `float()` on a digits-and-periods string, as an exact rational. -/
def pyFloat (cs : List Char) : Option ℚ :=
  (pyFloatParts cs).map decValue

/-- The cleaned amount token: `re.sub(r"[^\d.,]", "", amount_str.strip())`. -/
def amountCleaned (s : String) : List Char :=
  (pyStrip s.data).filter (fun c => isDigitChar c || c == ',' || c == '.')

/-- Separator disambiguation of `parse_amount`: if both comma and period
are present remove the commas, else if only commas are present turn them
into periods, else leave the token as is. -/
def amountNormalized (s : String) : List Char :=
  let cleaned := amountCleaned s
  if cleaned.contains ',' && cleaned.contains '.' then
    cleaned.filter (fun c => c != ',')
  else if cleaned.contains ',' then
    cleaned.map (fun c => if c == ',' then '.' else c)
  else
    cleaned

/-- `parse_amount` from `chat_parser.py`, split into its structural parts. -/
def parse_amountParts (s : String) : Option (Nat × Nat × Nat) :=
  pyFloatParts (amountNormalized s)

/-- `parse_amount` from `chat_parser.py`: strip and drop every character
that is not a digit, comma or period; if both comma and period are present
remove the commas, else if only commas are present turn them into periods;
then parse with `float()`. -/
def parse_amount (s : String) : Option ℚ :=
  (parse_amountParts s).map decValue

/-- A calendar date, as produced by Python `datetime.date`. -/
structure PyDate where
  year : Nat
  month : Nat
  day : Nat
deriving DecidableEq, Repr

/-- Gregorian leap-year rule used by `datetime.date`. -/
def isLeap (y : Nat) : Bool :=
  (y % 4 == 0 && y % 100 != 0) || y % 400 == 0

/-- Number of days of month `m` in year `y`. -/
def daysInMonth (y m : Nat) : Nat :=
  if m == 2 then (if isLeap y then 29 else 28)
  else if m == 4 || m == 6 || m == 9 || m == 11 then 30
  else 31

/-- Validity check performed by the `datetime.date` constructor. -/
def validDate (y m d : Nat) : Bool :=
  1 ≤ y && y ≤ 9999 && 1 ≤ m && m ≤ 12 && 1 ≤ d && d ≤ daysInMonth y m

/-- Match a one- or two-digit numeric field the way the `strptime` regex
for `%d` (`3[01]|[12]\d|0[1-9]|[1-9]`, so `hi = 31`) or `%m`
(`1[0-2]|0[1-9]|[1-9]`, so `hi = 12`) does: the two-digit alternatives
come first and the one-digit alternative is tried on backtracking. -/
def numField {α : Type} (hi : Nat) (cs : List Char)
    (k : Nat → List Char → Option α) : Option α :=
  (match cs with
   | a :: b :: rest =>
     match digitVal a, digitVal b with
     | some x, some y =>
       if 1 ≤ 10 * x + y ∧ 10 * x + y ≤ hi then k (10 * x + y) rest else none
     | _, _ => none
   | _ => none).orElse (fun _ =>
    match cs with
    | a :: rest =>
      match digitVal a with
      | some x => if 1 ≤ x then k x rest else none
      | none => none
    | [] => none)

/-- Match a literal separator character. -/
def expectCh {α : Type} (c : Char) (cs : List Char)
    (k : List Char → Option α) : Option α :=
  match cs with
  | x :: rest => if x == c then k rest else none
  | [] => none

/-- Match `%Y`: exactly four digits. -/
def year4 {α : Type} (cs : List Char) (k : Nat → List Char → Option α) : Option α :=
  match cs with
  | a :: b :: c :: d :: rest =>
    match digitVal a, digitVal b, digitVal c, digitVal d with
    | some w, some x, some y, some z => k (1000 * w + 100 * x + 10 * y + z) rest
    | _, _, _, _ => none
  | _ => none

/-- Match `%y`: exactly two digits, with the POSIX century rule used by
`strptime` (00-68 maps to 20xx, 69-99 to 19xx). -/
def year2 {α : Type} (cs : List Char) (k : Nat → List Char → Option α) : Option α :=
  match cs with
  | a :: b :: rest =>
    match digitVal a, digitVal b with
    | some x, some y =>
      k (if 10 * x + y ≤ 68 then 2000 + 10 * x + y else 1900 + 10 * x + y) rest
    | _, _ => none
  | _ => none

/-- Structural `strptime` match for `%d<sep>%m<sep>%Y` against the whole
token, returning `(day, month, year)`. -/
def structDMY (sep : Char) (cs : List Char) : Option (Nat × Nat × Nat) :=
  numField 31 cs (fun d cs1 =>
    expectCh sep cs1 (fun cs2 =>
      numField 12 cs2 (fun m cs3 =>
        expectCh sep cs3 (fun cs4 =>
          year4 cs4 (fun y cs5 =>
            if cs5.isEmpty then some (d, m, y) else none)))))

/-- Structural `strptime` match for `%d.%m.%y` against the whole token. -/
def structDMY2 (cs : List Char) : Option (Nat × Nat × Nat) :=
  numField 31 cs (fun d cs1 =>
    expectCh '.' cs1 (fun cs2 =>
      numField 12 cs2 (fun m cs3 =>
        expectCh '.' cs3 (fun cs4 =>
          year2 cs4 (fun y cs5 =>
            if cs5.isEmpty then some (d, m, y) else none)))))

/-- Structural `strptime` match for `%Y-%m-%d` against the whole token. -/
def structYMD (cs : List Char) : Option (Nat × Nat × Nat) :=
  year4 cs (fun y cs1 =>
    expectCh '-' cs1 (fun cs2 =>
      numField 12 cs2 (fun m cs3 =>
        expectCh '-' cs3 (fun cs4 =>
          numField 31 cs4 (fun d cs5 =>
            if cs5.isEmpty then some (d, m, y) else none)))))

/-- Calendar validation of a structural match: `datetime.strptime`
followed by the `datetime.date` constructor; a ValueError means failure. -/
def toDate (r : Option (Nat × Nat × Nat)) : Option PyDate :=
  match r with
  | some (d, m, y) => if validDate y m d then some ⟨y, m, d⟩ else none
  | none => none

/-- One `strptime` attempt for format `%d<sep>%m<sep>%Y`. -/
def fmtDMY (sep : Char) (cs : List Char) : Option PyDate :=
  toDate (structDMY sep cs)

/-- One `strptime` attempt for format `%d.%m.%y`. -/
def fmtDMY2 (cs : List Char) : Option PyDate :=
  toDate (structDMY2 cs)

/-- One `strptime` attempt for format `%Y-%m-%d`. -/
def fmtYMD (cs : List Char) : Option PyDate :=
  toDate (structYMD cs)

/-- `parse_date` from `chat_parser.py`: strip the token, then try the
formats `%d.%m.%Y`, `%d.%m.%y`, `%Y-%m-%d`, `%d/%m/%Y`, `%d-%m-%Y` in
that order, returning the first success and `None` when all fail. -/
def parse_date (s : String) : Option PyDate :=
  (fmtDMY '.' (pyStrip s.data)).orElse (fun _ =>
    (fmtDMY2 (pyStrip s.data)).orElse (fun _ =>
      (fmtYMD (pyStrip s.data)).orElse (fun _ =>
        (fmtDMY '/' (pyStrip s.data)).orElse (fun _ =>
          fmtDMY '-' (pyStrip s.data)))))

/-- Label alternatives of the `date` pattern `(?:дата|date)`. -/
def dateAlts : List (List Char) := ["дата".data, "date".data]

/-- Label alternatives of the `amount` pattern `(?:сумма|amount|sum)`. -/
def amountAlts : List (List Char) := ["сумма".data, "amount".data, "sum".data]

/-- Label alternatives of the `client` pattern `(?:клиент|client)`. -/
def clientAlts : List (List Char) := ["клиент".data, "client".data]

/-- Label alternatives of the `to` pattern `(?:преподаватель|teacher|to)`. -/
def toAlts : List (List Char) := ["преподаватель".data, "teacher".data, "to".data]

/-- Label alternatives of the classifier pattern `(?:категория|category)`. -/
def categoryAlts : List (List Char) := ["категория".data, "category".data]

/-- Label alternatives of the classifier pattern `(?:кому|recipient|to)`. -/
def komuAlts : List (List Char) := ["кому".data, "recipient".data, "to".data]

/-- First extraction pass of `parse_payin_message`: search the pattern on
the lower-cased copy of the text and strip the captured value. -/
def extractLower (alts : List (List Char)) (text : String) : Option String :=
  (searchCapture alts (text.data.map pyLowerChar)).map (fun v => String.mk (pyStrip v))

/-- Re-extraction pass of `parse_payin_message`: search the same pattern
on the original-case text (still case-insensitively) and strip the value. -/
def extractOrig (alts : List (List Char)) (text : String) : Option String :=
  (searchCapture alts text.data).map (fun v => String.mk (pyStrip v))

/-- The missing-fields list built by `parse_payin_message`, in the order
of its pattern table: `date`, `amount`, `client`, `to`. -/
def missingFields (text : String) : List String :=
  (if (extractLower dateAlts text).isSome then [] else ["date"]) ++
  (if (extractLower amountAlts text).isSome then [] else ["amount"]) ++
  (if (extractLower clientAlts text).isSome then [] else ["client"]) ++
  (if (extractLower toAlts text).isSome then [] else ["to"])

/-- The `data` dict of a successful pay-in parse. -/
structure PayinData where
  date : PyDate
  amount : ℚ
  client : String
  teacher : String
deriving DecidableEq, Repr

/-- The `ParseResult` dataclass of `chat_parser.py`. -/
structure ParseResult where
  success : Bool
  data : Option PayinData := none
  error : Option String := none
deriving DecidableEq, Repr

/-- `parse_payin_message` from `chat_parser.py`: extract the four labelled
fields from the lower-cased text, fail listing every missing field, then
validate the date, then the amount (`None` and the value zero both fail
the falsy check), then re-extract client and teacher from the
original-case text and succeed. -/
def parse_payin_message (text : String) : ParseResult :=
  match extractLower dateAlts text, extractLower amountAlts text,
      extractLower clientAlts text, extractLower toAlts text with
  | some dtok, some atok, some ctok, some ttok =>
    (match parse_date dtok with
     | none =>
       { success := false,
         error := some ("❌ Invalid date format: " ++ dtok ++ "\nExpected: DD.MM.YYYY") }
     | some d =>
       match parse_amount atok with
       | none =>
         { success := false, error := some ("❌ Invalid amount format: " ++ atok) }
       | some a =>
         if a = 0 then
           { success := false, error := some ("❌ Invalid amount format: " ++ atok) }
         else
           { success := true,
             data := some
               { date := d, amount := a,
                 client := (extractOrig clientAlts text).getD ctok,
                 teacher := (extractOrig toAlts text).getD ttok } })
  | _, _, _, _ =>
    { success := false,
      error := some ("❌ Missing fields: " ++ String.intercalate ", " (missingFields text)) }

/-- `looks_like_payment_message` from `chat_parser.py`: at least two of
the six keyword patterns occur somewhere in the text. -/
def looks_like_payment_message (text : String) : Bool :=
  2 ≤ ([dateAlts, amountAlts, clientAlts, toAlts, categoryAlts, komuAlts].filter
    (fun alts => searchKw alts text.data)).length

/-- `is_cancel_command` from `chat_parser.py`. -/
def is_cancel_command (text : String) : Bool :=
  String.mk ((pyStrip text.data).map pyLowerChar) == "cancel"

/-- A stored pay-in record, with the message/chat keys used for
cancellation lookups. -/
structure StoredPayment where
  message_id : Int
  chat_id : Int
  amount : ℚ
  client : String
  teacher : String
deriving DecidableEq, Repr

/-- Modelled from the spec: `delete_by_message_id(message_id,
conversation_id) -> deleted_record | null`. The store method is called by
`handle_payin_cancel` but its implementation is absent from the captured
`crud.py`, so it is modelled from the spec's store interface: delete the
stored record matching both keys and return it, or return null and leave
the store unchanged. -/
def delete_by_message_id : List StoredPayment → Int → Int → Option StoredPayment × List StoredPayment
  | [], _, _ => (none, [])
  | p :: ps, mid, cid =>
    if p.message_id == mid && p.chat_id == cid then (some p, ps)
    else
      ((delete_by_message_id ps mid cid).1, p :: (delete_by_message_id ps mid cid).2)

/-- Observable outcome of the cancel handler. -/
inductive CancelAction where
  | noAction
  | notFound
  | cancelled (deleted : StoredPayment)
deriving DecidableEq, Repr

/-- `handle_payin_cancel` from `chat_parser.py`, as a pure function of
the message text, the replied-to message id, the chat id and the store:
ignore anything that is not a `cancel` reply, otherwise look up and
delete the stored record keyed on the replied-to message id and the chat
id; reply not-found when the lookup returns null. -/
def handle_payin_cancel (text : Option String) (replyTo : Option Int) (chatId : Int)
    (store : List StoredPayment) : CancelAction × List StoredPayment :=
  match text with
  | none => (CancelAction.noAction, store)
  | some t =>
    if !is_cancel_command t then (CancelAction.noAction, store)
    else
      match replyTo with
      | none => (CancelAction.noAction, store)
      | some mid =>
        match (delete_by_message_id store mid chatId).1 with
        | some p => (CancelAction.cancelled p, (delete_by_message_id store mid chatId).2)
        | none => (CancelAction.notFound, (delete_by_message_id store mid chatId).2)

/-- Contiguous case-insensitive substring test, used to state that a text
does not contain a given label word anywhere. -/
def occursSeq : List Char → List Char → Bool
  | pat, [] => pat.isEmpty
  | pat, c :: cs => ciStarts pat (c :: cs) || occursSeq pat cs

/-- Helper: whenever the missing-fields list is non-empty,
`parse_payin_message` takes the missing-fields branch. -/
theorem parse_missing_branch (text : String) (h : missingFields text ≠ []) :
    parse_payin_message text =
      { success := false, data := none,
        error := some ("❌ Missing fields: " ++ String.intercalate ", " (missingFields text)) } := by
  unfold parse_payin_message
  rcases hd : extractLower dateAlts text with _ | dtok <;>
    rcases ha : extractLower amountAlts text with _ | atok <;>
      rcases hc : extractLower clientAlts text with _ | ctok <;>
        rcases ht : extractLower toAlts text with _ | ttok <;>
          simp_all [missingFields]

/-- Helper: a failed lookup leaves the store unchanged. -/
theorem delete_none_snd (store : List StoredPayment) (mid cid : Int)
    (h : (delete_by_message_id store mid cid).1 = none) :
    (delete_by_message_id store mid cid).2 = store := by
  induction store with
  | nil => rfl
  | cons p ps ih =>
    by_cases hp : (p.message_id == mid && p.chat_id == cid) = true
    · simp [delete_by_message_id, hp] at h
    · simp [delete_by_message_id, hp] at h ⊢
      exact ih h

/-- Helper: the value of a parsed decimal is non-negative. -/
theorem decValue_nonneg (p : Nat × Nat × Nat) : 0 ≤ decValue p := by
  unfold decValue
  rw [Rat.mkRat_eq_div]
  positivity

/-- C1 (amended): for every incoming-schema text from which all four
required labels extract and whose date token parses and whose amount
token parses to a nonzero value, `parse_payin_message` returns success
carrying exactly the typed date, the typed amount, and the client and
teacher values re-extracted from the original-case text. -/
theorem payin_roundtrip_success (text dtok atok ctok ttok : String) (d : PyDate) (a : ℚ)
    (hd : extractLower dateAlts text = some dtok)
    (ha : extractLower amountAlts text = some atok)
    (hc : extractLower clientAlts text = some ctok)
    (ht : extractLower toAlts text = some ttok)
    (hdate : parse_date dtok = some d)
    (hamt : parse_amount atok = some a)
    (hz : a ≠ 0) :
    parse_payin_message text =
      { success := true,
        data := some { date := d, amount := a,
                       client := (extractOrig clientAlts text).getD ctok,
                       teacher := (extractOrig toAlts text).getD ttok },
        error := none } := by
  unfold parse_payin_message
  rw [hd, ha, hc, ht]
  simp [hdate, hamt, hz]

/-- C1 (counterexample): the claim as stated fails on an amount token
that parses (to zero): all four labels extract, the date token parses,
the amount token parses, yet the parse does not succeed. -/
theorem payin_roundtrip_zero_counterexample :
    extractLower dateAlts "date: 01.02.2026\namount: 0\nclient: Ivanov\nteacher: Petrov" =
      some "01.02.2026" ∧
    extractLower amountAlts "date: 01.02.2026\namount: 0\nclient: Ivanov\nteacher: Petrov" =
      some "0" ∧
    extractLower clientAlts "date: 01.02.2026\namount: 0\nclient: Ivanov\nteacher: Petrov" =
      some "ivanov" ∧
    extractLower toAlts "date: 01.02.2026\namount: 0\nclient: Ivanov\nteacher: Petrov" =
      some "petrov" ∧
    (parse_date "01.02.2026").isSome = true ∧
    (parse_amount "0").isSome = true ∧
    (parse_payin_message "date: 01.02.2026\namount: 0\nclient: Ivanov\nteacher: Petrov").success
      = false := by
  decide

/-- C1 (witness): the amended theorem applied to the spec's end-to-end
sample message. -/
theorem payin_roundtrip_success_witness :
    extractLower dateAlts "date: 01.02.2026\namount: 5000\nclient: Ivanov\nteacher: Petrov" =
      some "01.02.2026" ∧
    parse_date "01.02.2026" = some ⟨2026, 2, 1⟩ ∧
    parse_amount "5000" = some 5000 ∧
    parse_payin_message "date: 01.02.2026\namount: 5000\nclient: Ivanov\nteacher: Petrov" =
      { success := true,
        data := some { date := ⟨2026, 2, 1⟩, amount := 5000,
                       client := "Ivanov", teacher := "Petrov" },
        error := none } := by
  refine ⟨by decide, by decide, by decide, ?_⟩
  have h := payin_roundtrip_success
    "date: 01.02.2026\namount: 5000\nclient: Ivanov\nteacher: Petrov"
    "01.02.2026" "5000" "ivanov" "petrov" ⟨2026, 2, 1⟩ 5000
    (by decide) (by decide) (by decide) (by decide) (by decide) (by decide) (by decide)
  rw [h]
  decide

/-- C2: whenever one or more required labels are absent,
`parse_payin_message` fails with a diagnostic enumerating every missing
field name in the pattern-table order; in particular `amount: 100` fails
with exactly `date, client, to`. -/
theorem missing_fields_enumerated :
    (∀ text : String, missingFields text ≠ [] →
      parse_payin_message text =
        { success := false, data := none,
          error := some ("❌ Missing fields: " ++
            String.intercalate ", " (missingFields text)) }) ∧
    missingFields "amount: 100" = ["date", "client", "to"] ∧
    parse_payin_message "amount: 100" =
      { success := false, data := none,
        error := some "❌ Missing fields: date, client, to" } :=
  ⟨parse_missing_branch, by decide, by decide⟩

/-- C2 (witness): the universal part applied to `amount: 100`. -/
theorem missing_fields_enumerated_witness :
    missingFields "amount: 100" ≠ [] ∧
    parse_payin_message "amount: 100" =
      { success := false, data := none,
        error := some ("❌ Missing fields: " ++
          String.intercalate ", " (missingFields "amount: 100")) } :=
  ⟨by decide, missing_fields_enumerated.1 "amount: 100" (by decide)⟩

/-- C3: the failure classes are checked in the fixed order missing
fields, bad date, bad amount: a text with a missing required field and
an unparseable date or amount token fails with only the missing-fields
diagnostic. -/
theorem failure_priority_missing_first (text : String)
    (hmiss : missingFields text ≠ [])
    (_hbad : (∃ dtok, extractLower dateAlts text = some dtok ∧ parse_date dtok = none) ∨
      (∃ atok, extractLower amountAlts text = some atok ∧ parse_amount atok = none)) :
    parse_payin_message text =
      { success := false, data := none,
        error := some ("❌ Missing fields: " ++
          String.intercalate ", " (missingFields text)) } :=
  parse_missing_branch text hmiss

/-- C3 (witness): a text with a missing client and teacher and an
unparseable date token reports only the missing fields. -/
theorem failure_priority_missing_first_witness :
    missingFields "date: 99.99.9999\namount: 5" ≠ [] ∧
    extractLower dateAlts "date: 99.99.9999\namount: 5" = some "99.99.9999" ∧
    parse_date "99.99.9999" = none ∧
    parse_payin_message "date: 99.99.9999\namount: 5" =
      { success := false, data := none,
        error := some ("❌ Missing fields: " ++
          String.intercalate ", " (missingFields "date: 99.99.9999\namount: 5")) } :=
  ⟨by decide, by decide, by decide,
    failure_priority_missing_first "date: 99.99.9999\namount: 5" (by decide)
      (Or.inl ⟨"99.99.9999", by decide, by decide⟩)⟩

/-- C4: `parse_date` tries the formats `%d.%m.%Y`, `%d.%m.%y`,
`%Y-%m-%d`, `%d/%m/%Y`, `%d-%m-%Y` in that fixed order on the trimmed
token, returns the first success, and returns null when none matches;
`01.02.2026` and `2026-02-01` both parse to 1 Feb 2026. -/
theorem parse_date_format_order :
    (∀ (s : String) (d : PyDate), fmtDMY '.' (pyStrip s.data) = some d →
      parse_date s = some d) ∧
    (∀ s : String, fmtDMY '.' (pyStrip s.data) = none →
      fmtDMY2 (pyStrip s.data) = none → fmtYMD (pyStrip s.data) = none →
      fmtDMY '/' (pyStrip s.data) = none →
      parse_date s = fmtDMY '-' (pyStrip s.data)) ∧
    parse_date "01.02.2026" = some ⟨2026, 2, 1⟩ ∧
    parse_date "2026-02-01" = some ⟨2026, 2, 1⟩ ∧
    parse_date "01.02.26" = some ⟨2026, 2, 1⟩ ∧
    parse_date "not a date" = none := by
  refine ⟨?_, ?_, by decide, by decide, by decide, by decide⟩
  · intro s d h
    unfold parse_date
    rw [h]
    rfl
  · intro s h1 h2 h3 h4
    unfold parse_date
    rw [h1, h2, h3, h4]
    rfl

/-- C4 (witness): the first-format-wins part applied to `01.02.2026`. -/
theorem parse_date_format_order_witness :
    fmtDMY '.' (pyStrip "01.02.2026".data) = some ⟨2026, 2, 1⟩ ∧
    parse_date "01.02.2026" = some ⟨2026, 2, 1⟩ :=
  ⟨by decide, parse_date_format_order.1 "01.02.2026" ⟨2026, 2, 1⟩ (by decide)⟩

/-- C5: `parse_amount` strips every character other than digits, comma
and period, then removes commas when both separators are present, else
turns commas into periods, else parses literally; a result is always
non-negative and failure yields null; the spec's three examples hold. -/
theorem parse_amount_disambiguation :
    (∀ s : String, ',' ∈ amountCleaned s → '.' ∈ amountCleaned s →
      parse_amount s = pyFloat ((amountCleaned s).filter (fun c => c != ','))) ∧
    (∀ s : String, ',' ∈ amountCleaned s → '.' ∉ amountCleaned s →
      parse_amount s = pyFloat ((amountCleaned s).map (fun c => if c == ',' then '.' else c))) ∧
    (∀ s : String, ',' ∉ amountCleaned s →
      parse_amount s = pyFloat (amountCleaned s)) ∧
    (∀ (s : String) (q : ℚ), parse_amount s = some q → 0 ≤ q) ∧
    parse_amount "1,234.56" = some (1234.56 : ℚ) ∧
    parse_amount "1234,56" = some (1234.56 : ℚ) ∧
    parse_amount "abc" = none := by
  refine ⟨?_, ?_, ?_, ?_, ?_, ?_, by decide⟩
  · intro s h1 h2
    simp [parse_amount, parse_amountParts, pyFloat, amountNormalized, h1, h2]
  · intro s h1 h2
    simp [parse_amount, parse_amountParts, pyFloat, amountNormalized, h1, h2]
  · intro s h1
    simp [parse_amount, parse_amountParts, pyFloat, amountNormalized, h1]
  · intro s q h
    unfold parse_amount at h
    cases hp : parse_amountParts s with
    | none => rw [hp] at h; simp at h
    | some p =>
      rw [hp] at h
      simp at h
      exact h ▸ decValue_nonneg p
  · have h : parse_amountParts "1,234.56" = some (1234, 56, 2) := by decide
    simp [parse_amount, h, decValue]
    norm_num [Rat.mkRat_eq_div]
  · have h : parse_amountParts "1234,56" = some (1234, 56, 2) := by decide
    simp [parse_amount, h, decValue]
    norm_num [Rat.mkRat_eq_div]

/-- C5 (witness): the comma-only rule applied to `1234,56`. -/
theorem parse_amount_disambiguation_witness :
    ',' ∈ amountCleaned "1234,56" ∧ '.' ∉ amountCleaned "1234,56" ∧
    parse_amount "1234,56" =
      pyFloat ((amountCleaned "1234,56").map (fun c => if c == ',' then '.' else c)) :=
  ⟨by decide, by decide,
    parse_amount_disambiguation.2.1 "1234,56" (by decide) (by decide)⟩

/-- C6: when all four labels extract and the date parses but the amount
token normalizes to zero, `parse_payin_message` fails with the
invalid-amount diagnostic: zero-amount payments are never recorded. -/
theorem zero_amount_rejected (text dtok atok ctok ttok : String) (d : PyDate)
    (hd : extractLower dateAlts text = some dtok)
    (ha : extractLower amountAlts text = some atok)
    (hc : extractLower clientAlts text = some ctok)
    (ht : extractLower toAlts text = some ttok)
    (hdate : parse_date dtok = some d)
    (hz : parse_amount atok = some 0) :
    parse_payin_message text =
      { success := false, data := none,
        error := some ("❌ Invalid amount format: " ++ atok) } := by
  unfold parse_payin_message
  rw [hd, ha, hc, ht]
  simp [hdate, hz]

/-- C6 (witness): a well-formed message with amount token `0` is
rejected with the invalid-amount diagnostic. -/
theorem zero_amount_rejected_witness :
    extractLower amountAlts "date: 01.02.2026\namount: 0\nclient: Ivanov\nteacher: Petrov" =
      some "0" ∧
    parse_date "01.02.2026" = some ⟨2026, 2, 1⟩ ∧
    parse_amount "0" = some 0 ∧
    parse_payin_message "date: 01.02.2026\namount: 0\nclient: Ivanov\nteacher: Petrov" =
      { success := false, data := none,
        error := some "❌ Invalid amount format: 0" } := by
  refine ⟨by decide, by decide, by decide, ?_⟩
  have h := zero_amount_rejected
    "date: 01.02.2026\namount: 0\nclient: Ivanov\nteacher: Petrov"
    "01.02.2026" "0" "ivanov" "petrov" ⟨2026, 2, 1⟩
    (by decide) (by decide) (by decide) (by decide) (by decide) (by decide)
  rw [h]
  decide

/-- C7: `looks_like_payment_message` is true exactly when at least two of
the six keyword patterns occur in the text, wherever they occur; texts
with zero or one matching label are rejected. -/
theorem looks_like_two_labels :
    (∀ text : String, looks_like_payment_message text = true ↔
      2 ≤ ([dateAlts, amountAlts, clientAlts, toAlts, categoryAlts, komuAlts].filter
        (fun alts => searchKw alts text.data)).length) ∧
    looks_like_payment_message "date: 1\nsum: 2" = true ∧
    looks_like_payment_message "client: X\nto: Y" = true ∧
    looks_like_payment_message "date: 1" = false ∧
    looks_like_payment_message "hello there" = false := by
  refine ⟨fun text => ?_, by decide, by decide, by decide, by decide⟩
  simp [looks_like_payment_message]

/-- C8 (counterexample): the failure diagnostic is not exactly the
spec's template: the code prepends a cross-mark prefix, so the claimed
exact string does not occur. -/
theorem error_template_exact_counterexample :
    (parse_payin_message "amount: 100").error = some "❌ Missing fields: date, client, to" ∧
    (parse_payin_message "amount: 100").error ≠ some "Missing fields: date, client, to" := by
  constructor
  · decide
  · decide

/-- C8 (amended): the failure diagnostics equal the spec's templates
prefixed with the cross mark and a space: missing fields yield
`❌ Missing fields: <comma-joined names>` and a date-normalization
failure yields `❌ Invalid date format: <raw token>` followed by the
expected-format line, with no other characters. -/
theorem error_templates_amended (text : String) :
    (missingFields text ≠ [] →
      (parse_payin_message text).error =
        some ("❌ Missing fields: " ++ String.intercalate ", " (missingFields text))) ∧
    (∀ dtok atok ctok ttok : String,
      extractLower dateAlts text = some dtok →
      extractLower amountAlts text = some atok →
      extractLower clientAlts text = some ctok →
      extractLower toAlts text = some ttok →
      parse_date dtok = none →
      (parse_payin_message text).error =
        some ("❌ Invalid date format: " ++ dtok ++ "\nExpected: DD.MM.YYYY")) := by
  constructor
  · intro h
    rw [parse_missing_branch text h]
  · intro dtok atok ctok ttok hd ha hc ht hdate
    unfold parse_payin_message
    rw [hd, ha, hc, ht]
    simp [hdate]

/-- C8 (witness): both templates observed on concrete inputs. -/
theorem error_templates_amended_witness :
    missingFields "amount: 100" ≠ [] ∧
    (parse_payin_message "amount: 100").error =
      some ("❌ Missing fields: " ++ String.intercalate ", " (missingFields "amount: 100")) ∧
    extractLower dateAlts "date: xx\namount: 5\nclient: a\nteacher: b" = some "xx" ∧
    parse_date "xx" = none ∧
    (parse_payin_message "date: xx\namount: 5\nclient: a\nteacher: b").error =
      some ("❌ Invalid date format: " ++ "xx" ++ "\nExpected: DD.MM.YYYY") :=
  ⟨by decide, (error_templates_amended "amount: 100").1 (by decide),
    by decide, by decide,
    (error_templates_amended "date: xx\namount: 5\nclient: a\nteacher: b").2
      "xx" "5" "a" "b" (by decide) (by decide) (by decide) (by decide) (by decide)⟩

/-- C9: for a cancellation request (a reply whose trimmed, case-folded
body is `cancel`), the handler performs the store lookup-and-delete keyed
on the replied-to message id and the chat id; a matching record is
removed and confirmed, and a null lookup yields the not-found reply with
the store unchanged. -/
theorem cancel_handler_spec (t : String) (mid cid : Int) (store : List StoredPayment)
    (h : is_cancel_command t = true) :
    (∀ p : StoredPayment, (delete_by_message_id store mid cid).1 = some p →
      handle_payin_cancel (some t) (some mid) cid store =
        (CancelAction.cancelled p, (delete_by_message_id store mid cid).2)) ∧
    ((delete_by_message_id store mid cid).1 = none →
      handle_payin_cancel (some t) (some mid) cid store =
        (CancelAction.notFound, store)) := by
  constructor
  · intro p hp
    unfold handle_payin_cancel
    simp [h, hp]
  · intro hp
    unfold handle_payin_cancel
    simp [h, hp, delete_none_snd store mid cid hp]

/-- C9 (witness): a `cancel` reply whose replied-to message has no
stored record yields the not-found reply and deletes nothing. -/
theorem cancel_handler_spec_witness :
    is_cancel_command "  Cancel " = true ∧
    (delete_by_message_id [⟨10, 5, 100, "A", "B"⟩] 99 5).1 = none ∧
    handle_payin_cancel (some "  Cancel ") (some 99) 5 [⟨10, 5, 100, "A", "B"⟩] =
      (CancelAction.notFound, [⟨10, 5, 100, "A", "B"⟩]) :=
  ⟨by decide, by decide,
    (cancel_handler_spec "  Cancel " 99 5 [⟨10, 5, 100, "A", "B"⟩] (by decide)).2 (by decide)⟩

/-- C10: the label patterns have no word-boundary anchor, so in a
message with no teacher label at all the line `auto: Petrov` matches the
teacher pattern via the trailing `to` of `auto`: the classifier counts
it, the extractor records `Petrov` as the teacher, and the message
parses successfully. -/
theorem suffix_label_matches :
    occursSeq "teacher".data
      "date: 01.02.2026\namount: 5000\nclient: Ivanov\nauto: Petrov".data = false ∧
    occursSeq "преподаватель".data
      "date: 01.02.2026\namount: 5000\nclient: Ivanov\nauto: Petrov".data = false ∧
    ciStarts "to".data
      "date: 01.02.2026\namount: 5000\nclient: Ivanov\nauto: Petrov".data = false ∧
    occursSeq " to".data
      "date: 01.02.2026\namount: 5000\nclient: Ivanov\nauto: Petrov".data = false ∧
    occursSeq "\nto".data
      "date: 01.02.2026\namount: 5000\nclient: Ivanov\nauto: Petrov".data = false ∧
    searchKw toAlts "auto: Petrov".data = true ∧
    extractOrig toAlts "date: 01.02.2026\namount: 5000\nclient: Ivanov\nauto: Petrov" =
      some "Petrov" ∧
    parse_payin_message "date: 01.02.2026\namount: 5000\nclient: Ivanov\nauto: Petrov" =
      { success := true,
        data := some { date := ⟨2026, 2, 1⟩, amount := 5000,
                       client := "Ivanov", teacher := "Petrov" },
        error := none } := by
  decide
